import Mathlib

/-!
Shallow embedding of the ocean.js pool client (`src/pools/balancer/Pool.ts`)
and network-configuration helper (`src/utils/ConfigHelper.ts`).

Modelling conventions:
* Decimal-string amounts are modelled by their exact rational values (`ℚ`).
* Every underlying network interaction (a web3 contract `.call()`, `.send()`
  or `.estimateGas()`) is an oracle field of the `PoolChain` state: either
  the value the chain returned (`Except.ok`) or a failure (`Except.error`).
* A JavaScript value that may be `null` is an `Option`.
* A method that can let a JavaScript exception escape returns `Except JsError _`;
  `Except.error` means the promise rejects (an exception escapes the method).
-/

/-- A JavaScript exception escaping one of the client methods: either an
explicit `throw new Error(msg)` or a runtime `TypeError` (for example calling
`.toString()` on `null`). -/
inductive JsError where
  | thrown (msg : String)
  | typeError (msg : String)
deriving DecidableEq, Repr

/-- A transaction receipt, identified by its transaction id. -/
structure Receipt where
  txId : Nat
deriving DecidableEq, Repr

/-- The `tokenInOutMarket` argument of the swap methods (`TokenInOutMarket`
in `src/@types`): addresses of the in token, the out token and the consume
market fee recipient. -/
structure TokenInOutMarket where
  tokenIn : String
  tokenOut : String
  marketFeeAddress : String
deriving DecidableEq, Repr

/-- The `amountsInOutMaxFee` argument of `swapExactAmountIn` (`AmountsInMaxFee`
in `src/@types`).  `maxPrice` is optional; `none` models the JavaScript field
being unset (`undefined`/`null`/empty). -/
structure AmountsInMaxFee where
  tokenAmountIn : ℚ
  minAmountOut : ℚ
  maxPrice : Option ℚ
  swapMarketFee : ℚ
deriving DecidableEq, Repr

/-- The `amountsInOutMaxFee` argument of `swapExactAmountOut`
(`AmountsOutMaxFee` in `src/@types`). -/
structure AmountsOutMaxFee where
  maxAmountIn : ℚ
  tokenAmountOut : ℚ
  maxPrice : Option ℚ
  swapMarketFee : ℚ
deriving DecidableEq, Repr

/-- Oracle describing the outcomes of the underlying contract interactions for
one pool, one caller and one set of call arguments.  Each field is the result
of the corresponding web3 call: `Except.ok` is the on-chain answer,
`Except.error` a rejected promise (network failure, revert, ...).  Fields that
the source parameterises with data the client computed itself (a submitted
amounts array, a new fee value) are functions of that data. -/
structure PoolChain where
  /-- Outcome of the ERC20 `decimals()` call on a token address. -/
  decimalsOf : String → Except String ℕ
  /-- Outcome of `pool.balanceOf(account)` (pool shares, in wei). -/
  balanceOf : String → Except String ℚ
  /-- Outcome of `pool.getNumTokens()`. -/
  getNumTokensRaw : Except String ℚ
  /-- Outcome of `pool.getSwapFee()` (in wei). -/
  getSwapFeeRaw : Except String ℚ
  /-- Outcome of `pool.getBalance(token)` (token base-units). -/
  getBalanceRaw : String → Except String ℚ
  /-- Outcome of `pool.getMarketFee()` (in wei). -/
  getMarketFeeRaw : Except String ℚ
  /-- Outcome of `pool._publishMarketCollector()`. -/
  publishMarketCollector : Except String String
  /-- Outcome of `pool.getSpotPrice(tokenIn, tokenOut, feeWei)` (raw fixed point). -/
  getSpotPriceRaw : Except String ℚ
  /-- Outcome of `pool.getFinalTokens()`. -/
  getFinalTokensRaw : Except String (List String)
  /-- Outcome of sending `pool.collectMarketFee()`. -/
  collectMarketFeeSend : Except String Receipt
  /-- Outcome of sending `pool.updatePublishMarketFee(newAddress, newFeeWei)`. -/
  updatePublishMarketFeeSend : String → ℚ → Except String Receipt
  /-- Outcome of sending `pool.swapExactAmountIn(addresses, amounts)`, as a
  function of the submitted amounts array. -/
  swapExactAmountInSend : List ℚ → Except String Receipt
  /-- Outcome of sending `pool.joinPool(poolAmountOutWei, maxAmountsInWei)`. -/
  joinPoolSend : ℚ → List ℚ → Except String Receipt
  /-- Outcome of sending `pool.exitPool(poolAmountInWei, minAmountsOutWei)`. -/
  exitPoolSend : ℚ → List ℚ → Except String Receipt
  /-- Outcome of `.estimateGas` for `setSwapFee`. -/
  estSetSwapFeeGas : Except String ℕ
  /-- Outcome of `.estimateGas` for `collectOPC`. -/
  estCollectOPCGas : Except String ℕ
  /-- Outcome of `.estimateGas` for `collectMarketFee`. -/
  estCollectMarketFeeGas : Except String ℕ
  /-- Outcome of `.estimateGas` for `updatePublishMarketFee`. -/
  estUpdatePublishMarketFeeGas : Except String ℕ
  /-- Outcome of `.estimateGas` for `swapExactAmountIn`, as a function of the
  submitted amounts array. -/
  estSwapExactAmountInGas : List ℚ → Except String ℕ
  /-- Outcome of `.estimateGas` for `swapExactAmountOut`, as a function of the
  submitted amounts array. -/
  estSwapExactAmountOutGas : List ℚ → Except String ℕ
  /-- Outcome of `.estimateGas` for `joinPool`. -/
  estJoinPoolGas : Except String ℕ
  /-- Outcome of `.estimateGas` for `exitPool`. -/
  estExitPoolGas : Except String ℕ
  /-- Outcome of `.estimateGas` for `joinswapExternAmountIn`. -/
  estJoinswapExternAmountInGas : Except String ℕ
  /-- Outcome of `.estimateGas` for `exitswapPoolAmountIn`. -/
  estExitswapPoolAmountInGas : Except String ℕ

/-- The constant `MaxUint256` of `Pool.ts` (lines 24-25), copied digit for
digit from the source string literal. -/
def MaxUint256 : ℕ :=
  115792089237316195423570985008687907853269984665640564039457584007913129639934

/-- The field `GASLIMIT_DEFAULT = 1000000` of the `Pool` class. -/
def GASLIMIT_DEFAULT : ℕ := 1000000

/-- web3's `toWei`: scale an ether-denominated decimal amount by `10 ^ 18`. -/
def toWei (amount : ℚ) : ℚ := amount * 10 ^ 18

/-- web3's `fromWei`: divide a wei amount by `10 ^ 18`. -/
def fromWei (amount : ℚ) : ℚ := amount / 10 ^ 18

/-- Modelled from the spec: the token-decimals lookup used by the unit
converters of `src/utils` (not included under `src/`): query the token's
`decimals()` and default to 18 when the call fails. -/
def tokenDecimals (st : PoolChain) (token : String) : ℕ :=
  match st.decimalsOf token with
  | .ok d => d
  | .error _ => 18

/-- Modelled from the spec: `amountToUnits` of `src/utils` (not included under
`src/`) converts a human-readable decimal amount to integer token base-units
by scaling with `10 ^ decimals` of that token (truncating any fractional
base-unit remainder; the spec requires exactness for integer base-unit
results). -/
def amountToUnits (st : PoolChain) (token : String) (amount : ℚ) : ℚ :=
  ((⌊amount * 10 ^ tokenDecimals st token⌋ : ℤ) : ℚ)

/-- Modelled from the spec: `unitsToAmount` of `src/utils` (not included under
`src/`) converts integer token base-units back to a human-readable amount by
dividing by `10 ^ decimals` of that token. -/
def unitsToAmount (st : PoolChain) (token : String) (units : ℚ) : ℚ :=
  units / 10 ^ tokenDecimals st token

/-- `Pool.sharesBalance` (Pool.ts 49-62): `result` starts as `null`; the
`balanceOf` call and the `fromWei` conversion happen inside `try`, a failure
is logged and `result` stays `null`; the method returns `result`. -/
def sharesBalance (st : PoolChain) (account : String) :
    Except JsError (Option ℚ) :=
  let result : Option ℚ :=
    match st.balanceOf account with
    | .ok balance => some (fromWei balance)
    | .error _ => none
  .ok result

/-- `Pool.getNumTokens` (Pool.ts 136-148): same catch-and-log pattern,
returning the raw call result or `null`. -/
def getNumTokens (st : PoolChain) : Except JsError (Option ℚ) :=
  let result : Option ℚ :=
    match st.getNumTokensRaw with
    | .ok r => some r
    | .error _ => none
  .ok result

/-- `Pool.getSwapFee` (Pool.ts 403-416): `fee` starts as `null`; call and
`fromWei` inside `try`; returns `fee`. -/
def getSwapFee (st : PoolChain) : Except JsError (Option ℚ) :=
  let fee : Option ℚ :=
    match st.getSwapFeeRaw with
    | .ok result => some (fromWei result)
    | .error _ => none
  .ok fee

/-- `Pool.getReserve` (Pool.ts 360-374): `amount` starts as `null`; the
`getBalance` call and `unitsToAmount` run inside `try` (failure logged);
afterwards the method returns `amount.toString()`, which raises a `TypeError`
when `amount` is still `null`. -/
def getReserve (st : PoolChain) (token : String) :
    Except JsError (Option ℚ) :=
  let amount : Option ℚ :=
    match st.getBalanceRaw token with
    | .ok result => some (unitsToAmount st token result)
    | .error _ => none
  match amount with
  | some a => .ok (some a)
  | none => .error (JsError.typeError "Cannot read properties of null")

/-- `Pool.getMarketFee` (Pool.ts 278-290): `result` starts as `null`; the
call runs inside `try` (failure logged); afterwards the method returns
`fromWei(result).toString()`, and `fromWei` raises when `result` is `null`. -/
def getMarketFee (st : PoolChain) : Except JsError (Option ℚ) :=
  let result : Option ℚ :=
    match st.getMarketFeeRaw with
    | .ok r => some r
    | .error _ => none
  match result with
  | some r => .ok (some (fromWei r))
  | none => .error (JsError.typeError "fromWei received null")

/-- `Pool.getMarketFeeCollector` (Pool.ts 297-311): catch-and-log, returns the
collector address or `null`. -/
def getMarketFeeCollector (st : PoolChain) : Except JsError (Option String) :=
  let result : Option String :=
    match st.publishMarketCollector with
    | .ok c => some c
    | .error _ => none
  .ok result

/-- `Pool.getFinalTokens` (Pool.ts 200-214): catch-and-log, returns the token
address list or `null`. -/
def getFinalTokens (st : PoolChain) : Except JsError (Option (List String)) :=
  let result : Option (List String) :=
    match st.getFinalTokensRaw with
    | .ok ts => some ts
    | .error _ => none
  .ok result

/-- The `maxPrice` defaulting shared by `swapExactAmountIn`,
`swapExactAmountOut` and their gas estimators (for example Pool.ts 798-800):
`amountsInOutMaxFee.maxPrice ? toWei(maxPrice) : MaxUint256`. -/
def computeMaxPrice (maxPrice : Option ℚ) : ℚ :=
  match maxPrice with
  | some p => toWei p
  | none => (MaxUint256 : ℚ)

/-- `Pool.estSetSwapFee` (Pool.ts 74-97): `estimateGas` inside `try`; on any
failure `estGas` is set to `GASLIMIT_DEFAULT`.  Total (never raises). -/
def estSetSwapFee (st : PoolChain) : ℕ :=
  match st.estSetSwapFeeGas with
  | .ok estGas => estGas
  | .error _ => GASLIMIT_DEFAULT

/-- `Pool.estCollectOPC` (Pool.ts 579-601): same default-on-failure pattern. -/
def estCollectOPC (st : PoolChain) : ℕ :=
  match st.estCollectOPCGas with
  | .ok estGas => estGas
  | .error _ => GASLIMIT_DEFAULT

/-- `Pool.estCollectMarketFee` (Pool.ts 637-659): same pattern. -/
def estCollectMarketFee (st : PoolChain) : ℕ :=
  match st.estCollectMarketFeeGas with
  | .ok estGas => estGas
  | .error _ => GASLIMIT_DEFAULT

/-- `Pool.estUpdatePublishMarketFee` (Pool.ts 703-727): same pattern. -/
def estUpdatePublishMarketFee (st : PoolChain) : ℕ :=
  match st.estUpdatePublishMarketFeeGas with
  | .ok estGas => estGas
  | .error _ => GASLIMIT_DEFAULT

/-- The amounts array `estSwapExactAmountIn` submits to `estimateGas`
(Pool.ts 805-818): the record's `tokenAmountIn` and `minAmountOut` verbatim,
the defaulted `maxPrice`, and `toWei(swapMarketFee)`. -/
def estSwapExactAmountInArgs (a : AmountsInMaxFee) : List ℚ :=
  [a.tokenAmountIn, a.minAmountOut, computeMaxPrice a.maxPrice,
   toWei a.swapMarketFee]

/-- `Pool.estSwapExactAmountIn` (Pool.ts 784-824): computes `maxPrice` with the
sentinel default, submits the amounts array to `estimateGas`, and substitutes
`GASLIMIT_DEFAULT` on any failure.  Total (never raises). -/
def estSwapExactAmountIn (st : PoolChain) (a : AmountsInMaxFee) : ℕ :=
  match st.estSwapExactAmountInGas (estSwapExactAmountInArgs a) with
  | .ok estGas => estGas
  | .error _ => GASLIMIT_DEFAULT

/-- The amounts array `estSwapExactAmountOut` submits to `estimateGas`
(Pool.ts 933-946). -/
def estSwapExactAmountOutArgs (a : AmountsOutMaxFee) : List ℚ :=
  [a.maxAmountIn, a.tokenAmountOut, computeMaxPrice a.maxPrice,
   toWei a.swapMarketFee]

/-- `Pool.estSwapExactAmountOut` (Pool.ts 911-952): same pattern as
`estSwapExactAmountIn`. -/
def estSwapExactAmountOut (st : PoolChain) (a : AmountsOutMaxFee) : ℕ :=
  match st.estSwapExactAmountOutGas (estSwapExactAmountOutArgs a) with
  | .ok estGas => estGas
  | .error _ => GASLIMIT_DEFAULT

/-- `Pool.estJoinPool` (Pool.ts 1032-1056): same default-on-failure pattern. -/
def estJoinPool (st : PoolChain) : ℕ :=
  match st.estJoinPoolGas with
  | .ok estGas => estGas
  | .error _ => GASLIMIT_DEFAULT

/-- `Pool.estExitPool` (Pool.ts 1119-1143): same pattern. -/
def estExitPool (st : PoolChain) : ℕ :=
  match st.estExitPoolGas with
  | .ok estGas => estGas
  | .error _ => GASLIMIT_DEFAULT

/-- `Pool.estJoinswapExternAmountIn` (Pool.ts 1204-1228): same pattern. -/
def estJoinswapExternAmountIn (st : PoolChain) : ℕ :=
  match st.estJoinswapExternAmountInGas with
  | .ok estGas => estGas
  | .error _ => GASLIMIT_DEFAULT

/-- `Pool.estExitswapPoolAmountIn` (Pool.ts 1292-1316): same pattern. -/
def estExitswapPoolAmountIn (st : PoolChain) : ℕ :=
  match st.estExitswapPoolAmountInGas with
  | .ok estGas => estGas
  | .error _ => GASLIMIT_DEFAULT

/-- `Pool.collectMarketFee` (Pool.ts 668-692): throws
`Caller is not MarketFeeCollector` when `getMarketFeeCollector` does not
return exactly the caller address (JavaScript `!==`; `null` also differs from
every address); otherwise estimates gas and sends, with the send failure
caught and logged (`result` stays `null`).  The second component records
whether a transaction submission was attempted. -/
def collectMarketFee (st : PoolChain) (address : String) :
    Except JsError (Option Receipt) × Bool :=
  match getMarketFeeCollector st with
  | .error e => (.error e, false)
  | .ok collector =>
    if collector ≠ some address then
      (.error (JsError.thrown "Caller is not MarketFeeCollector"), false)
    else
      let _estGas := estCollectMarketFee st
      match st.collectMarketFeeSend with
      | .ok r => (.ok (some r), true)
      | .error _ => (.ok none, true)

/-- `Pool.updatePublishMarketFee` (Pool.ts 737-773): same authorization
pre-check and throw as `collectMarketFee`; on success sends
`updatePublishMarketFee(newPublishMarketAddress, toWei(newPublishMarketSwapFee))`
with the send failure caught and logged. -/
def updatePublishMarketFee (st : PoolChain)
    (address newPublishMarketAddress : String)
    (newPublishMarketSwapFee : ℚ) :
    Except JsError (Option Receipt) × Bool :=
  match getMarketFeeCollector st with
  | .error e => (.error e, false)
  | .ok collector =>
    if collector ≠ some address then
      (.error (JsError.thrown "Caller is not MarketFeeCollector"), false)
    else
      let _estGas := estUpdatePublishMarketFee st
      match st.updatePublishMarketFeeSend newPublishMarketAddress
          (toWei newPublishMarketSwapFee) with
      | .ok r => (.ok (some r), true)
      | .error _ => (.ok none, true)

/-- `Pool.swapExactAmountIn` (Pool.ts 839-900): converts `tokenAmountIn` and
`minAmountOut` to base-units through the respective token's decimals, runs the
gas estimator on the converted record, defaults `maxPrice` to the sentinel,
and sends the amounts array; a send failure is caught and logged (`result`
stays `null`).  The second component is the submitted amounts array. -/
def swapExactAmountIn (st : PoolChain) (m : TokenInOutMarket)
    (a : AmountsInMaxFee) : Except JsError (Option Receipt) × List ℚ :=
  let converted : AmountsInMaxFee :=
    { a with
      tokenAmountIn := amountToUnits st m.tokenIn a.tokenAmountIn,
      minAmountOut := amountToUnits st m.tokenOut a.minAmountOut }
  let _estGas := estSwapExactAmountIn st converted
  let maxPrice := computeMaxPrice a.maxPrice
  let args : List ℚ :=
    [converted.tokenAmountIn, converted.minAmountOut, maxPrice,
     toWei a.swapMarketFee]
  let result : Option Receipt :=
    match st.swapExactAmountInSend args with
    | .ok r => some r
    | .error _ => none
  (.ok result, args)

/-- The unit-conversion loop of `joinPool` (Pool.ts 1082-1085):
`for (let i = 0; i < 2; i++)` push `amountToUnits(tokens[i], maxAmountsIn[i])`,
unrolled for `i = 0, 1`; `none` models an out-of-range access making the
conversion fail. -/
def joinPoolWeiAmounts (st : PoolChain) (tokens : List String)
    (maxAmountsIn : List ℚ) : Option (List ℚ) := do
  let t0 ← tokens.get? 0
  let a0 ← maxAmountsIn.get? 0
  let amount0 := amountToUnits st t0 a0
  let t1 ← tokens.get? 1
  let a1 ← maxAmountsIn.get? 1
  let amount1 := amountToUnits st t1 a1
  pure [amount0, amount1]

/-- The unit-conversion loop of `exitPool` (Pool.ts 1168-1171), identical in
shape to the `joinPool` loop. -/
def exitPoolWeiAmounts (st : PoolChain) (tokens : List String)
    (minAmountsOut : List ℚ) : Option (List ℚ) := do
  let t0 ← tokens.get? 0
  let b0 ← minAmountsOut.get? 0
  let amount0 := amountToUnits st t0 b0
  let t1 ← tokens.get? 1
  let b1 ← minAmountsOut.get? 1
  let amount1 := amountToUnits st t1 b1
  pure [amount0, amount1]

/-- `Pool.joinPool` (Pool.ts 1069-1108): reads `getFinalTokens`, converts the
first two amounts positionally, estimates gas and sends
`joinPool(toWei(poolAmountOut), weiMaxAmountsIn)`; a send failure is caught
and logged.  Accessing `tokens[i]` on a `null` token list, or converting a
missing entry, raises a `TypeError`.  On a non-raising run the result pairs
the (possibly `null`) receipt with the submitted base-unit array. -/
def joinPool (st : PoolChain) (poolAmountOut : ℚ) (maxAmountsIn : List ℚ) :
    Except JsError (Option Receipt × List ℚ) :=
  match getFinalTokens st with
  | .error e => .error e
  | .ok none => .error (JsError.typeError "tokens is null")
  | .ok (some tokens) =>
    match joinPoolWeiAmounts st tokens maxAmountsIn with
    | none => .error (JsError.typeError "token index out of range")
    | some weiMaxAmountsIn =>
      let _estGas := estJoinPool st
      match st.joinPoolSend (toWei poolAmountOut) weiMaxAmountsIn with
      | .ok r => .ok (some r, weiMaxAmountsIn)
      | .error _ => .ok (none, weiMaxAmountsIn)

/-- `Pool.exitPool` (Pool.ts 1155-1192): same shape as `joinPool`, sending
`exitPool(toWei(poolAmountIn), weiMinAmountsOut)`. -/
def exitPool (st : PoolChain) (poolAmountIn : ℚ) (minAmountsOut : List ℚ) :
    Except JsError (Option Receipt × List ℚ) :=
  match getFinalTokens st with
  | .error e => .error e
  | .ok none => .error (JsError.typeError "tokens is null")
  | .ok (some tokens) =>
    match exitPoolWeiAmounts st tokens minAmountsOut with
    | none => .error (JsError.typeError "token index out of range")
    | some weiMinAmountsOut =>
      let _estGas := estExitPool st
      match st.exitPoolSend (toWei poolAmountIn) weiMinAmountsOut with
      | .ok r => .ok (some r, weiMinAmountsOut)
      | .error _ => .ok (none, weiMinAmountsOut)

/-- The decimals-difference rescaling of `Pool.getSpotPrice`
(Pool.ts 1419-1428), idealised over exact rationals: when `tokenIn` has more
decimals the raw price is divided by `10 ^ (dIn - dOut)` and then by
`10 ^ dOut`; otherwise it is multiplied by `10 ^ (2 * (dOut - dIn))` and then
divided by `10 ^ dOut`. -/
def getSpotPriceScaled (rawPrice : ℚ) (decimalsTokenIn decimalsTokenOut : ℕ) :
    ℚ :=
  if decimalsTokenIn > decimalsTokenOut then
    (rawPrice / 10 ^ (decimalsTokenIn - decimalsTokenOut)) /
      10 ^ decimalsTokenOut
  else
    (rawPrice * 10 ^ (2 * (decimalsTokenOut - decimalsTokenIn))) /
      10 ^ decimalsTokenOut

/-- `Pool.getSpotPrice` (Pool.ts 1375-1431): looks up both tokens' decimals
(default 18 on failure), fetches the raw fixed-point price, and rescales it
with `getSpotPriceScaled`.  When the price call fails, `price` stays `null`,
which the subsequent JavaScript arithmetic coerces to `0`. -/
def getSpotPrice (st : PoolChain) (tokenIn tokenOut : String) : ℚ :=
  let decimalsTokenIn := tokenDecimals st tokenIn
  let decimalsTokenOut := tokenDecimals st tokenOut
  let price : ℚ :=
    match st.getSpotPriceRaw with
    | .ok p => p
    | .error _ => 0
  getSpotPriceScaled price decimalsTokenIn decimalsTokenOut


/-- One entry of the static `configs` table of `src/utils/ConfigHelper.ts`.
Fields the source sets to `null` (or omits, like `oceanTokenAddress` of the
`development` entry) are `none`. -/
structure NetworkConfigEntry where
  network : String
  url : Option String
  factoryAddress : Option String
  oceanTokenAddress : Option String
  metadataStoreUri : Option String
  providerUri : Option String
deriving DecidableEq, Repr

/-- The static `configs` table (ConfigHelper.ts 10-42), entry for entry. -/
def configs : List NetworkConfigEntry :=
  [{ network := "development",
     url := some "http://localhost:8545",
     factoryAddress := none,
     oceanTokenAddress := none,
     metadataStoreUri := some "http://127.0.0.1:5000",
     providerUri := some "http://127.0.0.1:8030" },
   { network := "pacific",
     url := some "https://pacific.oceanprotocol.com",
     factoryAddress := some "0x1234",
     oceanTokenAddress := some "0x012578f9381e876A9E2a9111Dfd436FF91A451ae",
     metadataStoreUri := none,
     providerUri := none },
   { network := "rinkeby",
     url := some "https://rinkeby.infura.io/v3/YOUR-PROJECT-ID",
     factoryAddress := some "0xcDfEe5D80041224cDCe9AE2334E85B3236385EA3",
     oceanTokenAddress := some "0x8967BCF84170c91B0d24D4302C2376283b0B3a07",
     metadataStoreUri := some "https://aquarius.rinkeby.v3.dev-ocean.com/",
     providerUri := some "https://provider.rinkeby.v3.dev-ocean.com/" },
   { network := "mainnet",
     url := some "https://mainnet.infura.io/v3/YOUR-PROJECT-ID",
     factoryAddress := some "0x1234",
     oceanTokenAddress := some "0x985dd3d42de1e256d09e1c10f112bccb8015ad41",
     metadataStoreUri := none,
     providerUri := none }]

/-- The record `ConfigHelper.getConfig` fills and returns (the `ConfigHelper`
interface of ConfigHelper.ts 1-8): the echoed `network` name plus five
nullable fields. -/
structure ConfigHelper where
  network : String
  url : Option String
  factoryAddress : Option String
  oceanTokenAddress : Option String
  metadataStoreUri : Option String
  providerUri : Option String
deriving DecidableEq, Repr

/-- `ConfigHelper.getConfig` (ConfigHelper.ts 44-66): pre-fill every field
except the echoed `network` with `null`, then overwrite all fields from the
first `configs` entry whose `network` equals the argument, if any. -/
def ConfigHelper.getConfig (network : String) : ConfigHelper :=
  let confighelp : ConfigHelper :=
    { factoryAddress := none,
      url := none,
      network := network,
      oceanTokenAddress := none,
      metadataStoreUri := none,
      providerUri := none }
  match configs.find? (fun c => c.network == network) with
  | some knownconfig =>
    { confighelp with
      factoryAddress := knownconfig.factoryAddress,
      oceanTokenAddress := knownconfig.oceanTokenAddress,
      url := knownconfig.url,
      network := knownconfig.network,
      metadataStoreUri := knownconfig.metadataStoreUri,
      providerUri := knownconfig.providerUri }
  | none => confighelp

/-- A chain oracle on which every underlying network interaction fails. -/
def stFail : PoolChain :=
  { decimalsOf := fun _ => .error "network failure",
    balanceOf := fun _ => .error "network failure",
    getNumTokensRaw := .error "network failure",
    getSwapFeeRaw := .error "network failure",
    getBalanceRaw := fun _ => .error "network failure",
    getMarketFeeRaw := .error "network failure",
    publishMarketCollector := .error "network failure",
    getSpotPriceRaw := .error "network failure",
    getFinalTokensRaw := .error "network failure",
    collectMarketFeeSend := .error "network failure",
    updatePublishMarketFeeSend := fun _ _ => .error "network failure",
    swapExactAmountInSend := fun _ => .error "network failure",
    joinPoolSend := fun _ _ => .error "network failure",
    exitPoolSend := fun _ _ => .error "network failure",
    estSetSwapFeeGas := .error "network failure",
    estCollectOPCGas := .error "network failure",
    estCollectMarketFeeGas := .error "network failure",
    estUpdatePublishMarketFeeGas := .error "network failure",
    estSwapExactAmountInGas := fun _ => .error "network failure",
    estSwapExactAmountOutGas := fun _ => .error "network failure",
    estJoinPoolGas := .error "network failure",
    estExitPoolGas := .error "network failure",
    estJoinswapExternAmountInGas := .error "network failure",
    estExitswapPoolAmountInGas := .error "network failure" }

/-- A healthy chain oracle: a two-token pool of a 6-decimals base token
`0xUSDC` and an 18-decimals datatoken `0xDT`, with every call succeeding. -/
def stOk : PoolChain :=
  { decimalsOf := fun t =>
      if t == "0xUSDC" then .ok 6
      else if t == "0xDT" then .ok 18
      else .error "decimals call failed",
    balanceOf := fun _ => .ok (5 * 10 ^ 18),
    getNumTokensRaw := .ok 2,
    getSwapFeeRaw := .ok (10 ^ 16),
    getBalanceRaw := fun _ => .ok (10 ^ 20),
    getMarketFeeRaw := .ok (10 ^ 15),
    publishMarketCollector := .ok "0xCollector",
    getSpotPriceRaw := .ok (10 ^ 18),
    getFinalTokensRaw := .ok ["0xUSDC", "0xDT"],
    collectMarketFeeSend := .ok ⟨7⟩,
    updatePublishMarketFeeSend := fun _ _ => .ok ⟨8⟩,
    swapExactAmountInSend := fun _ => .ok ⟨9⟩,
    joinPoolSend := fun _ _ => .ok ⟨11⟩,
    exitPoolSend := fun _ _ => .ok ⟨12⟩,
    estSetSwapFeeGas := .ok 31000,
    estCollectOPCGas := .ok 32000,
    estCollectMarketFeeGas := .ok 33000,
    estUpdatePublishMarketFeeGas := .ok 34000,
    estSwapExactAmountInGas := fun _ => .ok 35000,
    estSwapExactAmountOutGas := fun _ => .ok 36000,
    estJoinPoolGas := .ok 37000,
    estExitPoolGas := .ok 38000,
    estJoinswapExternAmountInGas := .ok 39000,
    estExitswapPoolAmountInGas := .ok 40000 }

/-- An example swap-direction argument for the witness theorems. -/
def marketEx : TokenInOutMarket :=
  { tokenIn := "0xUSDC", tokenOut := "0xDT", marketFeeAddress := "0xMarket" }

/-- Example swap amounts with `maxPrice` unset. -/
def amountsNoMax : AmountsInMaxFee :=
  { tokenAmountIn := 3, minAmountOut := 1, maxPrice := none,
    swapMarketFee := 1 / 1000 }

/-- Example swap amounts with `maxPrice` set to `5`. -/
def amountsWithMax : AmountsInMaxFee :=
  { tokenAmountIn := 3, minAmountOut := 1, maxPrice := some 5,
    swapMarketFee := 1 / 1000 }

/-- Example swap-out amounts with `maxPrice` unset. -/
def amountsOutNoMax : AmountsOutMaxFee :=
  { maxAmountIn := 9, tokenAmountOut := 2, maxPrice := none,
    swapMarketFee := 1 / 1000 }

/-- First-branch value of the spot-price rescaling: when `tokenIn` has more
decimals, the raw price is divided by `10 ^ decimalsTokenIn` in total. -/
lemma getSpotPriceScaled_of_gt (p : ℚ) {a b : ℕ} (h : b < a) :
    getSpotPriceScaled p a b = p / 10 ^ a := by
  unfold getSpotPriceScaled
  rw [if_pos h, div_div, ← pow_add, Nat.sub_add_cancel h.le]

/-- Second-branch value of the spot-price rescaling: when `tokenOut` has at
least as many decimals, the raw price is multiplied by the squared factor
`10 ^ (2 * (dOut - dIn))` before the `10 ^ dOut` normalisation. -/
lemma getSpotPriceScaled_of_le (p : ℚ) {a b : ℕ} (h : b ≤ a) :
    getSpotPriceScaled p b a = p * 10 ^ (2 * (a - b)) / 10 ^ a := by
  unfold getSpotPriceScaled
  rw [if_neg (by omega)]

/-- Equal-decimals value of the spot-price rescaling. -/
lemma getSpotPriceScaled_self (p : ℚ) (a : ℕ) :
    getSpotPriceScaled p a a = p / 10 ^ a := by
  unfold getSpotPriceScaled
  rw [if_neg (lt_irrefl a)]
  simp

/-- For strictly different decimal counts the two branches of the rescaling
are not mutually inverse: the product of the two cross-scaled prices differs
from the product of the two neutrally scaled prices. -/
lemma getSpotPriceScaled_prod_ne {a b : ℕ} (h : b < a) :
    getSpotPriceScaled 1 a b * getSpotPriceScaled 1 b a ≠
      getSpotPriceScaled 1 a a * getSpotPriceScaled 1 b b := by
  rw [getSpotPriceScaled_of_gt 1 h, getSpotPriceScaled_of_le 1 h.le,
    getSpotPriceScaled_self, getSpotPriceScaled_self]
  intro heq
  have h10a : ((10 : ℚ) ^ a) ≠ 0 := by positivity
  have h10b : ((10 : ℚ) ^ b) ≠ 0 := by positivity
  field_simp at heq
  have heq2 : (10 : ℚ) ^ a * (10 ^ (2 * (a - b)) * 10 ^ b) =
      10 ^ a * 10 ^ a := by linear_combination heq
  have hQ : ((10 : ℚ) ^ (2 * (a - b) + b)) = 10 ^ a := by
    rw [pow_add]
    exact mul_left_cancel₀ h10a heq2
  have hN : ((10 : ℕ) ^ (2 * (a - b) + b)) = 10 ^ a := by exact_mod_cast hQ
  have hexp := Nat.pow_right_injective (by norm_num) hN
  omega

/-- Claim C2 counterexample: at decimal counts 18 and 6 the two branches of
the `getSpotPrice` rescaling do not apply the same scaling factor in opposite
directions — the product of the two cross-scaled prices (`10 ^ -12`) differs
from the product of the two neutrally scaled prices (`10 ^ -24`), so
exchanging the tokenIn/tokenOut decimal counts is not reciprocal-consistent. -/
theorem getSpotPrice_swap_scaling_counterexample :
    ¬ (getSpotPriceScaled 1 18 6 * getSpotPriceScaled 1 6 18 =
        getSpotPriceScaled 1 18 18 * getSpotPriceScaled 1 6 6) := by
  norm_num [getSpotPriceScaled]

/-- Claim C2 (amended): the `getSpotPrice` rescaling is asymmetric — the
branch for `dIn > dOut` divides by the linear factor `10 ^ (dIn - dOut)`
while the branch for `dOut ≥ dIn` multiplies by the squared factor
`10 ^ (2 * (dOut - dIn))` — and exchanging the tokenIn/tokenOut decimal
counts is reciprocal-consistent (the two directional adjustments cancel the
way the neutral equal-decimals scaling does) exactly when the two decimal
counts are equal. -/
theorem getSpotPrice_swap_scaling_iff_eq_decimals (a b : ℕ) :
    (getSpotPriceScaled 1 a b * getSpotPriceScaled 1 b a =
      getSpotPriceScaled 1 a a * getSpotPriceScaled 1 b b) ↔ a = b := by
  constructor
  · intro h
    rcases lt_trichotomy a b with hab | hab | hab
    · have h2 : getSpotPriceScaled 1 b a * getSpotPriceScaled 1 a b =
          getSpotPriceScaled 1 b b * getSpotPriceScaled 1 a a := by
        rw [mul_comm, mul_comm (getSpotPriceScaled 1 b b)]
        exact h
      exact absurd h2 (getSpotPriceScaled_prod_ne hab)
    · exact hab
    · exact absurd h (getSpotPriceScaled_prod_ne hab)
  · rintro rfl
    rfl

/-- Claim C9: the sentinel maximum substituted for an unset `maxPrice` is the
constant `MaxUint256`, which equals `2 ^ 256 - 2`, one less than the maximum
representable uint256 value `2 ^ 256 - 1`. -/
theorem maxUint256_sentinel_value :
    computeMaxPrice none = (MaxUint256 : ℚ) ∧
    MaxUint256 = 2 ^ 256 - 2 ∧
    MaxUint256 + 1 = 2 ^ 256 - 1 := by
  refine ⟨rfl, by norm_num [MaxUint256], by norm_num [MaxUint256]⟩

/-- Claim C4: for every network name absent from the static `configs` table,
`ConfigHelper.getConfig` returns a record echoing the name in `network` with
`url`, `factoryAddress`, `oceanTokenAddress`, `metadataStoreUri` and
`providerUri` all null, and raises no error (the function is total). -/
theorem getConfig_unknown_network_nulls (network : String)
    (h : ∀ c ∈ configs, c.network ≠ network) :
    ConfigHelper.getConfig network =
      { network := network, url := none, factoryAddress := none,
        oceanTokenAddress := none, metadataStoreUri := none,
        providerUri := none } := by
  have hfind : configs.find? (fun c => c.network == network) = none := by
    rw [List.find?_eq_none]
    intro c hc
    simpa using h c hc
  simp [ConfigHelper.getConfig, hfind]

/-- Witness for claim C4 at the concrete unknown network name `moonnet`. -/
theorem getConfig_unknown_network_nulls_witness :
    ConfigHelper.getConfig "moonnet" =
      { network := "moonnet", url := none, factoryAddress := none,
        oceanTokenAddress := none, metadataStoreUri := none,
        providerUri := none } :=
  getConfig_unknown_network_nulls "moonnet" (by decide)

/-- Claim C5: every gas-estimation method substitutes the fixed default gas
limit `GASLIMIT_DEFAULT = 1000000` whenever the underlying `estimateGas` call
fails; each estimator is a total function into `ℕ`, so gas estimation never
raises. -/
theorem est_gas_default_on_failure (st : PoolChain) (a : AmountsInMaxFee)
    (ao : AmountsOutMaxFee) :
    (∀ e, st.estSetSwapFeeGas = .error e →
      estSetSwapFee st = GASLIMIT_DEFAULT) ∧
    (∀ e, st.estCollectOPCGas = .error e →
      estCollectOPC st = GASLIMIT_DEFAULT) ∧
    (∀ e, st.estCollectMarketFeeGas = .error e →
      estCollectMarketFee st = GASLIMIT_DEFAULT) ∧
    (∀ e, st.estUpdatePublishMarketFeeGas = .error e →
      estUpdatePublishMarketFee st = GASLIMIT_DEFAULT) ∧
    (∀ e, st.estSwapExactAmountInGas (estSwapExactAmountInArgs a) = .error e →
      estSwapExactAmountIn st a = GASLIMIT_DEFAULT) ∧
    (∀ e, st.estSwapExactAmountOutGas (estSwapExactAmountOutArgs ao) = .error e →
      estSwapExactAmountOut st ao = GASLIMIT_DEFAULT) ∧
    (∀ e, st.estJoinPoolGas = .error e →
      estJoinPool st = GASLIMIT_DEFAULT) ∧
    (∀ e, st.estExitPoolGas = .error e →
      estExitPool st = GASLIMIT_DEFAULT) ∧
    (∀ e, st.estJoinswapExternAmountInGas = .error e →
      estJoinswapExternAmountIn st = GASLIMIT_DEFAULT) ∧
    (∀ e, st.estExitswapPoolAmountInGas = .error e →
      estExitswapPoolAmountIn st = GASLIMIT_DEFAULT) ∧
    GASLIMIT_DEFAULT = 1000000 := by
  refine ⟨?_, ?_, ?_, ?_, ?_, ?_, ?_, ?_, ?_, ?_, rfl⟩ <;>
    intro e h <;>
    simp [estSetSwapFee, estCollectOPC, estCollectMarketFee,
      estUpdatePublishMarketFee, estSwapExactAmountIn, estSwapExactAmountOut,
      estJoinPool, estExitPool, estJoinswapExternAmountIn,
      estExitswapPoolAmountIn, h]

/-- Witness for claim C5: on the all-failing chain every estimator returns
`GASLIMIT_DEFAULT`. -/
theorem est_gas_default_on_failure_witness :
    estSetSwapFee stFail = GASLIMIT_DEFAULT ∧
    estCollectOPC stFail = GASLIMIT_DEFAULT ∧
    estCollectMarketFee stFail = GASLIMIT_DEFAULT ∧
    estUpdatePublishMarketFee stFail = GASLIMIT_DEFAULT ∧
    estSwapExactAmountIn stFail amountsNoMax = GASLIMIT_DEFAULT ∧
    estSwapExactAmountOut stFail amountsOutNoMax = GASLIMIT_DEFAULT ∧
    estJoinPool stFail = GASLIMIT_DEFAULT ∧
    estExitPool stFail = GASLIMIT_DEFAULT ∧
    estJoinswapExternAmountIn stFail = GASLIMIT_DEFAULT ∧
    estExitswapPoolAmountIn stFail = GASLIMIT_DEFAULT := by
  have h := est_gas_default_on_failure stFail amountsNoMax amountsOutNoMax
  exact ⟨h.1 "network failure" rfl, h.2.1 "network failure" rfl,
    h.2.2.1 "network failure" rfl, h.2.2.2.1 "network failure" rfl,
    h.2.2.2.2.1 "network failure" rfl, h.2.2.2.2.2.1 "network failure" rfl,
    h.2.2.2.2.2.2.1 "network failure" rfl,
    h.2.2.2.2.2.2.2.1 "network failure" rfl,
    h.2.2.2.2.2.2.2.2.1 "network failure" rfl,
    h.2.2.2.2.2.2.2.2.2.1 "network failure" rfl⟩

/-- Claim C1 (code-bug demonstration): on a chain where every underlying call
fails, the read methods `sharesBalance`, `getNumTokens` and `getSwapFee`
resolve to null as the uniform failure policy prescribes, but `getReserve`
and `getMarketFee` let a `TypeError` escape — after catching and logging the
call failure they evaluate `amount.toString()` respectively `fromWei(result)`
on the still-null local outside the `try` block. -/
theorem getReserve_getMarketFee_raise_on_failure :
    sharesBalance stFail "0xUser" = .ok none ∧
    getNumTokens stFail = .ok none ∧
    getSwapFee stFail = .ok none ∧
    getReserve stFail "0xUSDC" =
      .error (JsError.typeError "Cannot read properties of null") ∧
    getMarketFee stFail =
      .error (JsError.typeError "fromWei received null") :=
  ⟨rfl, rfl, rfl, rfl, rfl⟩

/-- Claim C6: whenever `maxPrice` is unset, `swapExactAmountIn` and its gas
estimator submit the sentinel `MaxUint256` (which is neither zero nor null)
as the max-price bound (index 2 of the submitted amounts array); whenever
`maxPrice` is set, its `toWei` conversion is submitted instead. -/
theorem swapExactAmountIn_maxPrice_sentinel (st : PoolChain)
    (m : TokenInOutMarket) (a : AmountsInMaxFee) :
    (a.maxPrice = none →
      (swapExactAmountIn st m a).2.get? 2 = some ((MaxUint256 : ℚ)) ∧
      (estSwapExactAmountInArgs a).get? 2 = some ((MaxUint256 : ℚ)) ∧
      ((MaxUint256 : ℚ)) ≠ 0) ∧
    (∀ p, a.maxPrice = some p →
      (swapExactAmountIn st m a).2.get? 2 = some (toWei p) ∧
      (estSwapExactAmountInArgs a).get? 2 = some (toWei p)) := by
  constructor
  · intro h
    refine ⟨?_, ?_, by norm_num [MaxUint256]⟩ <;>
      simp [swapExactAmountIn, estSwapExactAmountInArgs, computeMaxPrice, h]
  · intro p h
    constructor <;>
      simp [swapExactAmountIn, estSwapExactAmountInArgs, computeMaxPrice, h]

/-- Witness for claim C6 at concrete inputs: with `maxPrice` unset the third
submitted amount is the sentinel, and with `maxPrice = 5` it is `toWei 5`. -/
theorem swapExactAmountIn_maxPrice_sentinel_witness :
    (swapExactAmountIn stOk marketEx amountsNoMax).2.get? 2 =
      some ((MaxUint256 : ℚ)) ∧
    (swapExactAmountIn stOk marketEx amountsWithMax).2.get? 2 =
      some (toWei 5) := by
  have h1 :=
    (swapExactAmountIn_maxPrice_sentinel stOk marketEx amountsNoMax).1 rfl
  have h2 :=
    (swapExactAmountIn_maxPrice_sentinel stOk marketEx amountsWithMax).2 5 rfl
  exact ⟨h1.1, h2.1⟩

/-- Claim C3: `collectMarketFee` and `updatePublishMarketFee` throw
`Caller is not MarketFeeCollector` — without attempting any transaction
submission (second component `false`) — whenever the on-chain collector
lookup result differs from the caller address, and return a valid non-null
receipt when the caller is the recorded collector and the contract send
succeeds. -/
theorem collectMarketFee_updatePublishMarketFee_auth (st : PoolChain)
    (address newAddr : String) (newFee : ℚ) :
    (getMarketFeeCollector st ≠ .ok (some address) →
      collectMarketFee st address =
        (.error (JsError.thrown "Caller is not MarketFeeCollector"), false) ∧
      updatePublishMarketFee st address newAddr newFee =
        (.error (JsError.thrown "Caller is not MarketFeeCollector"), false)) ∧
    (getMarketFeeCollector st = .ok (some address) →
      (∀ r, st.collectMarketFeeSend = .ok r →
        collectMarketFee st address = (.ok (some r), true)) ∧
      (∀ r, st.updatePublishMarketFeeSend newAddr (toWei newFee) = .ok r →
        updatePublishMarketFee st address newAddr newFee =
          (.ok (some r), true))) := by
  cases hpc : st.publishMarketCollector with
  | error e =>
    refine ⟨fun _ => ⟨?_, ?_⟩, fun habs => ?_⟩
    · simp [collectMarketFee, getMarketFeeCollector, hpc]
    · simp [updatePublishMarketFee, getMarketFeeCollector, hpc]
    · exact absurd habs (by simp [getMarketFeeCollector, hpc])
  | ok c =>
    by_cases hca : c = address
    · subst hca
      refine ⟨fun hne => absurd ?_ hne, fun _ => ⟨?_, ?_⟩⟩
      · simp [getMarketFeeCollector, hpc]
      · intro r hr
        simp [collectMarketFee, getMarketFeeCollector, hpc, hr]
      · intro r hr
        simp [updatePublishMarketFee, getMarketFeeCollector, hpc, hr]
    · refine ⟨fun _ => ⟨?_, ?_⟩, fun heq => ?_⟩
      · simp [collectMarketFee, getMarketFeeCollector, hpc, hca]
      · simp [updatePublishMarketFee, getMarketFeeCollector, hpc, hca]
      · exact absurd (by simpa [getMarketFeeCollector, hpc] using heq) hca

/-- Witness for claim C3 on the healthy chain `stOk` (collector
`0xCollector`): the collector gets receipts, a different caller gets the
named throw with no submission attempted. -/
theorem collectMarketFee_updatePublishMarketFee_auth_witness :
    collectMarketFee stOk "0xCollector" = (.ok (some ⟨7⟩), true) ∧
    updatePublishMarketFee stOk "0xCollector" "0xNewMarket" (1 / 100) =
      (.ok (some ⟨8⟩), true) ∧
    collectMarketFee stOk "0xEve" =
      (.error (JsError.thrown "Caller is not MarketFeeCollector"), false) := by
  have hok := (collectMarketFee_updatePublishMarketFee_auth stOk
    "0xCollector" "0xNewMarket" (1 / 100)).2 rfl
  have hne := (collectMarketFee_updatePublishMarketFee_auth stOk
    "0xEve" "0xNewMarket" (1 / 100)).1
    (by intro h; simp [getMarketFeeCollector, stOk] at h)
  exact ⟨hok.1 ⟨7⟩ rfl, hok.2 ⟨8⟩ rfl, hne.1⟩

/-- Claim C10: when the collector lookup itself fails (the
`_publishMarketCollector` call rejects, so `getMarketFeeCollector` resolves
to null), `collectMarketFee` and `updatePublishMarketFee` throw
`Caller is not MarketFeeCollector` for every caller address, without
attempting any transaction submission. -/
theorem collector_lookup_failure_reports_auth_error (st : PoolChain)
    (address newAddr : String) (newFee : ℚ) (e : String)
    (h : st.publishMarketCollector = .error e) :
    collectMarketFee st address =
      (.error (JsError.thrown "Caller is not MarketFeeCollector"), false) ∧
    updatePublishMarketFee st address newAddr newFee =
      (.error (JsError.thrown "Caller is not MarketFeeCollector"), false) := by
  constructor <;>
    simp [collectMarketFee, updatePublishMarketFee, getMarketFeeCollector, h]

/-- Witness for claim C10 on the all-failing chain: even the genuine
collector address is rejected with the authorization error. -/
theorem collector_lookup_failure_reports_auth_error_witness :
    collectMarketFee stFail "0xCollector" =
      (.error (JsError.thrown "Caller is not MarketFeeCollector"), false) ∧
    updatePublishMarketFee stFail "0xCollector" "0xNewMarket" (1 / 100) =
      (.error (JsError.thrown "Caller is not MarketFeeCollector"), false) :=
  collector_lookup_failure_reports_auth_error stFail "0xCollector"
    "0xNewMarket" (1 / 100) "network failure" rfl

/-- Claim C7: `joinPool` and `exitPool` convert the caller-supplied amounts
to base-units strictly by position over exactly the first two tokens returned
by `getFinalTokens`: the submitted base-unit array has element `i` equal to
`amountToUnits` of `amounts[i]` through the decimals of `tokens[i]`, in
order. -/
theorem joinPool_exitPool_positional_conversion (st : PoolChain)
    (poolAmountOut poolAmountIn : ℚ) (t0 t1 : String) (a0 a1 b0 b1 : ℚ)
    (rj re : Receipt)
    (htok : st.getFinalTokensRaw = .ok [t0, t1])
    (hjoin : st.joinPoolSend (toWei poolAmountOut)
      [amountToUnits st t0 a0, amountToUnits st t1 a1] = .ok rj)
    (hexit : st.exitPoolSend (toWei poolAmountIn)
      [amountToUnits st t0 b0, amountToUnits st t1 b1] = .ok re) :
    joinPool st poolAmountOut [a0, a1] =
      .ok (some rj, [amountToUnits st t0 a0, amountToUnits st t1 a1]) ∧
    exitPool st poolAmountIn [b0, b1] =
      .ok (some re, [amountToUnits st t0 b0, amountToUnits st t1 b1]) := by
  have hwj : joinPoolWeiAmounts st [t0, t1] [a0, a1] =
      some [amountToUnits st t0 a0, amountToUnits st t1 a1] := rfl
  have hwe : exitPoolWeiAmounts st [t0, t1] [b0, b1] =
      some [amountToUnits st t0 b0, amountToUnits st t1 b1] := rfl
  constructor
  · simp [joinPool, getFinalTokens, htok, hwj, hjoin]
  · simp [exitPool, getFinalTokens, htok, hwe, hexit]

/-- Witness for claim C7 on `stOk`: the pool tokens are the 6-decimals
`0xUSDC` followed by the 18-decimals `0xDT`, and the submitted arrays scale
each amount by the matching token's decimals, in order. -/
theorem joinPool_exitPool_positional_conversion_witness :
    joinPool stOk 1 [1, 2] =
      .ok (some ⟨11⟩,
        [amountToUnits stOk "0xUSDC" 1, amountToUnits stOk "0xDT" 2]) ∧
    exitPool stOk 2 [3, 4] =
      .ok (some ⟨12⟩,
        [amountToUnits stOk "0xUSDC" 3, amountToUnits stOk "0xDT" 4]) :=
  joinPool_exitPool_positional_conversion stOk 1 2 "0xUSDC" "0xDT"
    1 2 3 4 ⟨11⟩ ⟨12⟩ rfl rfl rfl

/-- Claim C8: for every token and every human-readable amount whose base-unit
image is an integer (`amount * 10 ^ decimals` equals some integer `n`),
converting to base-units with `amountToUnits` and back with `unitsToAmount`
through the same token's decimals returns the original amount exactly. -/
theorem amountToUnits_unitsToAmount_roundtrip (st : PoolChain)
    (token : String) (amount : ℚ)
    (h : ∃ n : ℤ, amount * 10 ^ tokenDecimals st token = (n : ℚ)) :
    unitsToAmount st token (amountToUnits st token amount) = amount := by
  obtain ⟨n, hn⟩ := h
  unfold unitsToAmount amountToUnits
  have h10 : ((10 : ℚ) ^ tokenDecimals st token) ≠ 0 := by positivity
  rw [hn, Int.floor_intCast, ← hn, mul_div_cancel_right₀ amount h10]

/-- Witness for claim C8 at six decimals and `amount = 3/2`: the base-unit
image `1500000` is integral and the round trip is exact. -/
theorem amountToUnits_unitsToAmount_roundtrip_witness :
    (3 / 2 : ℚ) * 10 ^ tokenDecimals stOk "0xUSDC" = ((1500000 : ℤ) : ℚ) ∧
    unitsToAmount stOk "0xUSDC" (amountToUnits stOk "0xUSDC" (3 / 2)) =
      3 / 2 := by
  have hint : (3 / 2 : ℚ) * 10 ^ tokenDecimals stOk "0xUSDC" =
      ((1500000 : ℤ) : ℚ) := by
    norm_num [tokenDecimals, stOk]
  exact ⟨hint, amountToUnits_unitsToAmount_roundtrip stOk "0xUSDC" (3 / 2)
    ⟨1500000, hint⟩⟩
